import Mathlib

/-!
Verification of the route-planning repository (Group4_LabAct).

The repository contains three variants of the same application:
  - fantastic-tour.py          (namespace FT below)  - hardened GUI variant
  - fantasticTour.py           (namespace FT2 below) - map-enabled GUI variant
  - graphhopper_parse-json_7.py (namespace MQ below) - CLI variant

The embedding idealizes Python floats as exact rationals (the type Q below,
an integer numerator over a positive natural denominator, kept unnormalized
so that every operation is kernel-computable), Python dicts parsed from JSON
as structures of optional fields, and the single outbound HTTP request of
each client as an explicit parameter describing what the transport would
produce (an exception or a status code with a body).  Each client function
also returns the number of HTTP requests it performed, and each workflow
function returns the number of times it invoked the route client.
-/

/-- Rational numbers as an unnormalized fraction.  Every constructor used in
this development keeps the denominator positive.  Python floats are idealized
as values of this type; all comparisons and formatting are exact. -/
structure Q where
  num : Int
  den : Nat
deriving DecidableEq

instance (n : Nat) : OfNat Q n := ⟨⟨Int.ofNat n, 1⟩⟩

instance : Neg Q := ⟨fun a => ⟨-a.num, a.den⟩⟩

/-- Fraction literal n / d, for decimal literals such as 1609.34 = mk2 160934 100. -/
def Q.mk2 (n : Int) (d : Nat) : Q := ⟨n, d⟩

def Q.ofInt (n : Int) : Q := ⟨n, 1⟩

def Q.mul (a b : Q) : Q := ⟨a.num * b.num, a.den * b.den⟩

def Q.sub (a b : Q) : Q := ⟨a.num * (b.den : Int) - b.num * (a.den : Int), a.den * b.den⟩

/-- Division of rationals.  Division by zero (never performed by the embedded
code, whose divisors are positive constants) yields a denominator of zero. -/
def Q.div (a b : Q) : Q :=
  if b.num < 0 then ⟨-(a.num * (b.den : Int)), a.den * b.num.natAbs⟩
  else ⟨a.num * (b.den : Int), a.den * b.num.natAbs⟩

/-- Boolean less-or-equal, by cross multiplication (denominators positive). -/
def Q.ble (a b : Q) : Bool := a.num * (b.den : Int) ≤ b.num * (a.den : Int)

/-- Boolean strict less-than. -/
def Q.blt (a b : Q) : Bool := a.num * (b.den : Int) < b.num * (a.den : Int)

/-- Boolean value equality (Python ==). -/
def Q.beq (a b : Q) : Bool := a.num * (b.den : Int) == b.num * (a.den : Int)

/-- Floor to an integer (toward negative infinity), as Python int division. -/
def Q.floorInt (a : Q) : Int := a.num.fdiv (a.den : Int)

/-- Round to the nearest integer, ties to even: the rounding Python uses when
formatting a float with a fixed number of decimals. -/
def Q.rhe (a : Q) : Int :=
  let f := a.num.fdiv (a.den : Int)
  let r2 := 2 * (a.num - f * (a.den : Int))
  if r2 < (a.den : Int) then f
  else if (a.den : Int) < r2 then f + 1
  else if f % 2 == 0 then f else f + 1

/-- Decimal digits of n, left padded with zeros to width w. -/
def padZeroLeft (n : Nat) (w : Nat) : String :=
  let s := Nat.repr n
  ⟨List.replicate (w - s.data.length) '0' ++ s.data⟩

/-- Fixed-point rendering of a rational with p digits after the point:
the Python format specifier :.pf (with p = 0 rendering no point at all). -/
def Q.formatFixed (a : Q) (p : Nat) : String :=
  let r := Q.rhe ⟨a.num * ((10 ^ p : Nat) : Int), a.den⟩
  let mag := r.natAbs
  let sign := if r < 0 then "-" else ""
  if p = 0 then sign ++ Nat.repr mag
  else sign ++ Nat.repr (mag / 10 ^ p) ++ "." ++ padZeroLeft (mag % 10 ^ p) p

/-- Python str.strip() whitespace set (the ASCII part, which is what the
location strings of this application can contain). -/
def pyWs (c : Char) : Bool :=
  c == ' ' || c == '\t' || c == '\n' || c == '\r' || c == '\x0b' || c == '\x0c'

/-- Drop the characters satisfying p from both ends of a string. -/
def stripBy (p : Char → Bool) (s : String) : String :=
  ⟨((s.data.dropWhile p).reverse.dropWhile p).reverse⟩

/-- Python str.strip() with no arguments. -/
def pyStrip (s : String) : String := stripBy pyWs s

/-- Membership in the two-character strip set of strip(", "). -/
def csChar (c : Char) : Bool := c == ',' || c == ' '

/-- Python strip(", "): remove commas and spaces from both ends. -/
def stripCS (s : String) : String := stripBy csChar s

/-- Python lower() on the ASCII texts this application handles. -/
def pyLower (s : String) : String := ⟨s.data.map Char.toLower⟩

/-- Substring test over character lists (the Python operator "needle in hay"). -/
def infixCheck (n : List Char) : List Char → Bool
  | [] => List.isPrefixOf n []
  | c :: t => List.isPrefixOf n (c :: t) || infixCheck n t

/-- Python substring containment on strings. -/
def pyInStr (needle hay : String) : Bool := infixCheck needle.data hay.data

/-- Pad a string on the right with spaces to width w (Python :<w). -/
def padTo (s : String) (w : Nat) : String :=
  s ++ ⟨List.replicate (w - s.data.length) ' '⟩

/-- Pad a string on the left with spaces to width w (Python :>w). -/
def padNumTo (s : String) (w : Nat) : String :=
  (⟨List.replicate (w - s.data.length) ' '⟩ : String) ++ s

/-- Repetition of one character (Python "=" * 50). -/
def repChar (c : Char) (n : Nat) : String := ⟨List.replicate n c⟩

/-- Render a natural below 100 with two digits (Python :02d on the values
this application formats, which are minute and second counts). -/
def pad2 (n : Nat) : String := if n < 10 then "0" ++ Nat.repr n else Nat.repr n

/-- Transport-level exception raised by requests.get, carrying str(e). -/
inductive NetExc where
  | timeout (s : String)
  | connError (s : String)
  | reqExc (s : String)
  | otherExc (s : String)
deriving DecidableEq

/-- String payload of a transport exception. -/
def NetExc.msg : NetExc → String
  | .timeout s | .connError s | .reqExc s | .otherExc s => s

/-- Body of an HTTP response as the clients see it: response.json() raised
ValueError, parsed JSON that is not a dict (s is the str of the exception a
dict access on it would raise), or a parsed dict b. -/
inductive HttpBody (β : Type) where
  | badJson (s : String)
  | nonDict (s : String)
  | dict (b : β)

/-- Outcome of the single outbound HTTP request a client call performs. -/
inductive NetResp (β : Type) where
  | exc (e : NetExc)
  | resp (status : Nat) (body : HttpBody β)

/-- The point object of a geocoding hit; lat and lng may be absent. -/
structure GeoPoint where
  lat : Option Q
  lng : Option Q
deriving DecidableEq

/-- One entry of the hits array of a geocoding response. -/
structure GeoHit where
  point : Option GeoPoint
  name : Option String
  country : Option String
  state : Option String
deriving DecidableEq

/-- Parsed body of a geocoding response. -/
structure GeoData where
  hits : Option (List GeoHit)
  message : Option String
deriving DecidableEq

/-- One entry of the instructions array of a routing path: either not a dict
at all, or a dict whose text and distance fields may be absent. -/
inductive InstrItem where
  | nonDict
  | item (text : Option String) (distance : Option Q)
deriving DecidableEq

/-- The points object of a routing path. -/
structure PointsObj where
  coordinates : Option (List (Q × Q))
deriving DecidableEq

/-- One entry of the paths array of a routing response. -/
structure PathEntry where
  distance : Option Q
  time : Option Q
  instructions : Option (List InstrItem)
  points : Option PointsObj
deriving DecidableEq

/-- Parsed body of a routing response. -/
structure RouteData where
  paths : Option (List PathEntry)
  message : Option String
deriving DecidableEq

/-- The configured API key as Python sees it: None, a string, or a value of
another type (with its truthiness). -/
inductive PyKey where
  | pyNone
  | str (s : String)
  | nonStr (truthy : Bool)
deriving DecidableEq

/-- Return value of geocode: the error dict or the success dict. -/
inductive GeocodeRes where
  | err (msg : String)
  | ok (lat lng : Q) (name : String)
deriving DecidableEq

/-- Return value of get_route: the error dict or the success dict. -/
inductive RouteRes where
  | err (msg : String)
  | ok (data : RouteData)
deriving DecidableEq

/-- An argument passed to get_route for a coordinate: not a dict, or a dict
whose lat and lng keys may be absent. -/
inductive CoordArg where
  | nonDict
  | dict (lat : Option Q) (lng : Option Q)
deriving DecidableEq

/-- Range check on one coordinate pair, as both GUI variants write it:
-90 <= lat <= 90 and -180 <= lng <= 180. -/
def coordInRange (lat lng : Q) : Bool :=
  Q.ble (-90) lat && Q.ble lat 90 && Q.ble (-180) lng && Q.ble lng 180

/-- Responses the three upstream calls of one workflow run would produce. -/
structure World where
  geoOrig : NetResp GeoData
  geoDest : NetResp GeoData
  route : NetResp RouteData

/-- Python exception escaping a function that does not catch it. -/
inductive PyExc where
  | keyErr (k : String)
  | typeErr
  | indexErr
deriving DecidableEq

instance {ε α : Type} [DecidableEq ε] [DecidableEq α] : DecidableEq (Except ε α)
  | .error e, .error f =>
    if h : e = f then isTrue (congrArg Except.error h)
    else isFalse (fun c => h (Except.error.inj c))
  | .error _, .ok _ => isFalse (fun c => Except.noConfusion c)
  | .ok _, .error _ => isFalse (fun c => Except.noConfusion c)
  | .ok a, .ok b =>
    if h : a = b then isTrue (congrArg Except.ok h)
    else isFalse (fun c => h (Except.ok.inj c))

namespace FT

/-- RouteAPI.validate_api_key of fantastic-tour.py (lines 24-30): None or a
falsy value means the key was not found; a truthy non-string or a
whitespace-only string is an invalid format.  Returns the error message, or
none on success. -/
def validate_api_key (key : PyKey) : Option String :=
  match key with
  | .pyNone => some "API key not found. Please check your .env file."
  | .str s =>
    if s = "" then some "API key not found. Please check your .env file."
    else if (pyStrip s).data.length = 0 then some "Invalid API key format."
    else none
  | .nonStr truthy =>
    if truthy then some "Invalid API key format."
    else some "API key not found. Please check your .env file."

/-- RouteAPI.validate_location_input of fantastic-tour.py (lines 32-43). -/
def validate_location_input (location : String) : Option String :=
  if location = "" ∨ pyStrip location = "" then
    some "Location cannot be empty."
  else if (pyStrip location).data.length < 2 then
    some "Location must be at least 2 characters long."
  else if location.data.length > 200 then
    some "Location is too long (max 200 characters)."
  else if ['<', '>', ';', '|', '&', '$'].any (fun c => location.data.contains c) then
    some "Invalid characters in location."
  else none

/-- RouteAPI.validate_vehicle_type of fantastic-tour.py (lines 45-50). -/
def validate_vehicle_type (vehicle : String) : Option String :=
  if vehicle = "car" ∨ vehicle = "bike" ∨ vehicle = "foot" then none
  else some "Invalid vehicle type. Must be one of: car, bike, foot"

/-- The try block of RouteAPI.geocode of fantastic-tour.py (lines 69-120):
the single requests.get and every handler around it.  The location argument
appears only in the no-results message. -/
def geocode_request (location : String) (net : NetResp GeoData) : GeocodeRes :=
  match net with
  | .exc (.timeout _) => .err "Geocoding request timed out. Please try again."
  | .exc (.connError _) =>
    .err "Network connection error. Please check your internet connection."
  | .exc (.reqExc s) => .err ("Network error: " ++ s)
  | .exc (.otherExc s) => .err ("Unexpected error: " ++ s)
  | .resp status body =>
    if status = 401 then .err "Invalid API key. Please check your credentials."
    else if status = 403 then
      .err "API access forbidden. Check your API key permissions."
    else if status = 429 then
      .err "API rate limit exceeded. Please try again later."
    else if status ≥ 500 then .err "Server error. Please try again later."
    else if status ≠ 200 then
      .err ("API returned status code: " ++ Nat.repr status)
    else match body with
    | .badJson _ => .err "Invalid JSON response from server."
    | .nonDict _ => .err "Invalid API response format."
    | .dict data =>
      match data.hits with
      | some (hit :: _) =>
        (match hit.point with
         | none => .err "Unexpected error: 'point'"
         | some point =>
           match point.lat, point.lng with
           | some la, some ln =>
             if !(coordInRange la ln) then .err "Invalid coordinate values received."
             else
               let name := hit.name.getD "Unknown"
               let country := hit.country.getD ""
               let state := hit.state.getD ""
               .ok la ln (stripCS (name ++ ", " ++ state ++ ", " ++ country))
           | _, _ => .err "Invalid coordinate data in API response.")
      | some [] =>
        .err (match data.message with
              | some m => m
              | none => "No results found for '" ++ location ++ "'")
      | none => .err "Invalid response format from geocoding service."

/-- RouteAPI.geocode of fantastic-tour.py (lines 52-120).  The first
component counts the HTTP requests performed (0 or 1); net is what that
request would produce. -/
def geocode (key : PyKey) (location : String) (net : NetResp GeoData) :
    Nat × GeocodeRes :=
  match validate_location_input location with
  | some m => (0, .err m)
  | none =>
    match validate_api_key key with
    | some m => (0, .err m)
    | none => (1, geocode_request location net)

/-- The try block of RouteAPI.get_route of fantastic-tour.py (lines 150-194):
the single requests.get and every handler around it. -/
def get_route_request (net : NetResp RouteData) : RouteRes :=
  match net with
  | .exc (.timeout _) => .err "Routing request timed out. Please try again."
  | .exc (.connError _) => .err "Network connection error during routing."
  | .exc (.reqExc s) => .err ("Network error during routing: " ++ s)
  | .exc (.otherExc s) => .err ("Unexpected routing error: " ++ s)
  | .resp status body =>
    if status = 401 then .err "Invalid API key for routing service."
    else if status = 403 then .err "Routing API access forbidden."
    else if status = 429 then .err "Routing API rate limit exceeded."
    else if status ≥ 500 then .err "Routing server error. Please try again later."
    else if status ≠ 200 then
      .err ("Routing API returned status code: " ++ Nat.repr status)
    else match body with
    | .badJson _ => .err "Invalid JSON response from routing service."
    | .nonDict _ => .err "Invalid routing response format."
    | .dict data =>
      match data.paths with
      | some (path :: _) =>
        match path.distance, path.time with
        | some _, some _ => .ok data
        | _, _ => .err "Incomplete route data in response."
      | _ => .err "No route path found in response."

/-- RouteAPI.get_route of fantastic-tour.py (lines 122-194).  The first
component counts the HTTP requests performed (0 or 1). -/
def get_route (key : PyKey) (sc ec : CoordArg) (vehicle : String)
    (net : NetResp RouteData) : Nat × RouteRes :=
  match sc, ec with
  | .dict slat slng, .dict elat elng =>
    match slat, slng, elat, elng with
    | some sla, some sln, some ela, some eln =>
      if !(coordInRange sla sln && coordInRange ela eln) then
        (0, .err "Invalid coordinate values.")
      else
        match validate_vehicle_type vehicle with
        | some m => (0, .err m)
        | none =>
          match validate_api_key key with
          | some m => (0, .err m)
          | none => (1, get_route_request net)
    | _, _, _, _ => (0, .err "Missing coordinate data.")
  | _, _ => (0, .err "Invalid coordinate data.")

/-- FantasticRouterApp.format_distance of fantastic-tour.py (lines 704-713);
unit is the value of the unit_var radio variable.  The isinstance check of
the source cannot fail here because the argument is numeric by type. -/
def format_distance (unit : String) (meters : Q) : String :=
  if Q.blt meters 0 then "Invalid distance"
  else if unit = "metric" then
    if Q.ble 1000 meters then Q.formatFixed (meters.div 1000) 2 ++ " km"
    else Q.formatFixed meters 0 ++ " m"
  else
    let miles := meters.div (Q.mk2 160934 100)
    if Q.ble (Q.mk2 1 10) miles then Q.formatFixed miles 2 ++ " miles"
    else Q.formatFixed (meters.mul (Q.mk2 328084 100000)) 0 ++ " ft"

/-- FantasticRouterApp.format_time of fantastic-tour.py (lines 715-723). -/
def format_time (ms : Q) : String :=
  if Q.blt ms 0 then "Invalid time"
  else
    let s0 := ms.div 1000
    let h := (s0.div 3600).floorInt
    let rem1 := s0.sub (Q.ofInt (h * 3600))
    let m := (rem1.div 60).floorInt
    let rem2 := rem1.sub (Q.ofInt (m * 60))
    if 0 < h then Nat.repr h.natAbs ++ "h " ++ pad2 m.natAbs ++ "m"
    else Nat.repr m.natAbs ++ "m " ++ pad2 rem2.floorInt.natAbs ++ "s"

/-- One rendered line of the directions text of display_results
(fantastic-tour.py lines 649-667), for the 1-based index i. -/
def renderLine (unit : String) (i : Nat) (text : String) (dist : Q) : String :=
  let d := format_distance unit dist
  let lower := pyLower text
  let icon :=
    if pyInStr "arrived" lower then "üèÅ ARRIVED"
    else if pyInStr "turn left" lower then "‚Ü©Ô∏è LEFT"
    else if pyInStr "turn right" lower then "‚Ü™Ô∏è RIGHT"
    else if pyInStr "roundabout" lower then "üîÑ ROUND"
    else if pyInStr "keep" lower then "‚¨ÜÔ∏è CONTINUE"
    else if pyInStr "exit" lower then "üö™ EXIT"
    else "‚û°Ô∏è NEXT"
  padNumTo (Nat.repr i) 2 ++ ". " ++ padTo icon 12 ++ " " ++ padTo text 40
    ++ " [" ++ d ++ "]\n"

/-- The instruction loop of display_results (fantastic-tour.py lines
644-667): Python enumerate from 1 with continue on an entry that is not a
dict or lacks the text or distance key, functionally a filterMap. -/
def instrLines (unit : String) (l : List InstrItem) : List String :=
  (List.enumFrom 1 l).filterMap (fun p =>
    match p.2 with
    | .nonDict => none
    | .item txt dst =>
      match txt, dst with
      | some t, some d => some (renderLine unit p.1 t d)
      | _, _ => none)

/-- Header line of the directions text (fantastic-tour.py line 638). -/
def directionsHeader : String :=
  "üöÄ FANTASTIC TOUR MISSION BRIEFING üöÄ\n"
    ++ repChar '=' 50 ++ "\n\n"

/-- Footer of the directions text (fantastic-tour.py line 669). -/
def directionsFooter : String :=
  "\n" ++ repChar '=' 50 ++ "\n‚ú® MISSION ACCOMPLISHED! ‚ú®"

/-- Placeholder shown when the path carries no instructions
(fantastic-tour.py line 642). -/
def noInstrLine : String := "No turn-by-turn instructions available for this route.\n"

/-- Outcome of display_results: the error message it shows, or the three
texts it writes into the distance label, the time label and the directions
box. -/
inductive DisplayRes where
  | err (msg : String)
  | ok (distText timeText directionsText : String)
deriving DecidableEq

/-- FantasticRouterApp.display_results of fantastic-tour.py (lines 603-681).
The data argument is the dict the route client returned; the numeric
isinstance checks of the source cannot fail here because the embedded fields
are numeric by type, and the surrounding try can therefore never reach its
except clause. -/
def display_results (unit : String) (data : RouteData) : DisplayRes :=
  match data.paths with
  | some (path :: _) =>
    match path.distance, path.time with
    | some d, some t =>
      if Q.blt d 0 then .err "Invalid distance value in route data."
      else if Q.blt t 0 then .err "Invalid time value in route data."
      else
        let mid :=
          match path.instructions with
          | none => noInstrLine
          | some [] => noInstrLine
          | some l => String.join (instrLines unit l)
        .ok (format_distance unit d) (format_time t)
          (directionsHeader ++ mid ++ directionsFooter)
    | _, _ => .err "Incomplete route data received."
  | _ => .err "Invalid route data received."

/-- Outcome of the background workflow get_route_logic: which stage failed
with which message, the identical-coordinates warning, or the route data
handed to display_results. -/
inductive FlowOutcome where
  | originErr (msg : String)
  | destErr (msg : String)
  | sameLoc
  | routeErr (msg : String)
  | routed (data : RouteData)
deriving DecidableEq

/-- FantasticRouterApp.get_route_logic of fantastic-tour.py (lines 563-601):
strip both entry texts, geocode origin, geocode destination, reject
bit-identical coordinates, then call the route client.  The first component
counts the invocations of the route client get_route (0 or 1). -/
def get_route_logic (key : PyKey) (startEntry destEntry vehicle : String)
    (w : World) : Nat × FlowOutcome :=
  let start_loc := pyStrip startEntry
  let dest_loc := pyStrip destEntry
  match geocode key start_loc w.geoOrig with
  | (_, .err m) => (0, .originErr ("Origin Error: " ++ m))
  | (_, .ok olat olng _) =>
    match geocode key dest_loc w.geoDest with
    | (_, .err m) => (0, .destErr ("Destination Error: " ++ m))
    | (_, .ok dlat dlng _) =>
      if Q.beq olat dlat && Q.beq olng dlng then (0, .sameLoc)
      else
        match get_route key (.dict (some olat) (some olng))
            (.dict (some dlat) (some dlng)) vehicle w.route with
        | (_, .err m) => (1, .routeErr ("Routing Error: " ++ m))
        | (_, .ok data) => (1, .routed data)

end FT

namespace FT2

/-- RouteAPI.validate_api_key of fantasticTour.py (lines 28-33), identical
in text to the fantastic-tour.py one. -/
def validate_api_key (key : PyKey) : Option String :=
  match key with
  | .pyNone => some "API key not found. Please check your .env file."
  | .str s =>
    if s = "" then some "API key not found. Please check your .env file."
    else if (pyStrip s).data.length = 0 then some "Invalid API key format."
    else none
  | .nonStr truthy =>
    if truthy then some "Invalid API key format."
    else some "API key not found. Please check your .env file."

/-- RouteAPI.validate_location_input of fantasticTour.py (lines 35-44),
identical in text to the fantastic-tour.py one. -/
def validate_location_input (location : String) : Option String :=
  if location = "" ∨ pyStrip location = "" then
    some "Location cannot be empty."
  else if (pyStrip location).data.length < 2 then
    some "Location must be at least 2 characters long."
  else if location.data.length > 200 then
    some "Location is too long (max 200 characters)."
  else if ['<', '>', ';', '|', '&', '$'].any (fun c => location.data.contains c) then
    some "Invalid characters in location."
  else none

/-- RouteAPI.validate_vehicle_type of fantasticTour.py (lines 46-50). -/
def validate_vehicle_type (vehicle : String) : Option String :=
  if vehicle = "car" ∨ vehicle = "bike" ∨ vehicle = "foot" then none
  else some "Invalid vehicle type. Must be one of: car, bike, foot"

/-- RouteAPI.geocode of fantasticTour.py (lines 52-79).  Unlike the
fantastic-tour.py variant it distinguishes no HTTP statuses beyond 200,
checks neither the presence nor the range of the returned coordinates, and
funnels every exception (including the KeyError a missing point, lat or lng
field raises, whose str is the quoted key) into one Unexpected error
message.  The first component counts the HTTP requests performed. -/
def geocode (key : PyKey) (location : String) (net : NetResp GeoData) :
    Nat × GeocodeRes :=
  match validate_location_input location with
  | some m => (0, .err m)
  | none =>
    match validate_api_key key with
    | some m => (0, .err m)
    | none =>
      match net with
      | .exc e => (1, .err ("Unexpected error: " ++ e.msg))
      | .resp status body =>
        if status ≠ 200 then
          (1, .err ("API returned status code: " ++ Nat.repr status))
        else match body with
        | .badJson s => (1, .err ("Unexpected error: " ++ s))
        | .nonDict s => (1, .err ("Unexpected error: " ++ s))
        | .dict data =>
          match data.hits with
          | some (hit :: _) =>
            (match hit.point with
             | none => (1, .err "Unexpected error: 'point'")
             | some point =>
               let name := hit.name.getD "Unknown"
               let country := hit.country.getD ""
               let state := hit.state.getD ""
               let full_name := stripCS (name ++ ", " ++ state ++ ", " ++ country)
               match point.lat, point.lng with
               | some la, some ln => (1, .ok la ln full_name)
               | none, _ => (1, .err "Unexpected error: 'lat'")
               | some _, none => (1, .err "Unexpected error: 'lng'"))
          | _ => (1, .err ("No results found for '" ++ location ++ "'"))

/-- RouteAPI.get_route of fantasticTour.py (lines 81-106).  Unlike the
fantastic-tour.py variant it accepts the response as soon as the paths
array is nonempty, without checking the first path for distance or time
fields.  The first component counts the HTTP requests performed. -/
def get_route (key : PyKey) (sc ec : CoordArg) (vehicle : String)
    (net : NetResp RouteData) : Nat × RouteRes :=
  match sc, ec with
  | .dict slat slng, .dict elat elng =>
    match slat, slng, elat, elng with
    | some sla, some sln, some ela, some eln =>
      if !(coordInRange sla sln && coordInRange ela eln) then
        (0, .err "Invalid coordinate values.")
      else
        match validate_vehicle_type vehicle with
        | some m => (0, .err m)
        | none =>
          match validate_api_key key with
          | some m => (0, .err m)
          | none =>
            match net with
            | .exc e => (1, .err ("Unexpected routing error: " ++ e.msg))
            | .resp status body =>
              if status ≠ 200 then
                (1, .err ("Routing API returned status code: " ++ Nat.repr status))
              else match body with
              | .badJson s => (1, .err ("Unexpected routing error: " ++ s))
              | .nonDict s => (1, .err ("Unexpected routing error: " ++ s))
              | .dict data =>
                match data.paths with
                | some (_ :: _) => (1, .ok data)
                | _ => (1, .err "No route path found in response.")
    | _, _, _, _ => (0, .err "Missing coordinate data.")
  | _, _ => (0, .err "Invalid coordinate data.")

/-- The directions loop of calculate_route (fantasticTour.py lines 595-597):
each line is the 1-based index, the raw instruction text and a newline.  An
entry that is not a dict raises TypeError, one without a text key raises
KeyError, and nothing catches either. -/
def instrText : Nat → List InstrItem → Except PyExc String
  | _, [] => .ok ""
  | _, .nonDict :: _ => .error .typeErr
  | i, .item txt _ :: rest =>
    match txt with
    | none => .error (.keyErr "text")
    | some t =>
      match instrText (i + 1) rest with
      | .error e => .error e
      | .ok r => .ok (Nat.repr i ++ ". " ++ t ++ "\n" ++ r)

/-- Outcome of the calculate_route worker when it terminates without an
uncaught exception: the error message it put into the status bar, or the
distance label, time label and directions texts of a completed run. -/
inductive CalcOutcome where
  | failed (msg : String)
  | done (distText timeText directionsText : String)
deriving DecidableEq

/-- FantasticRouterApp.calculate_route of fantasticTour.py (lines 524-609):
geocode both entries (taken raw, without strip), call the route client
directly - there is no identical-coordinate rejection in this variant -
then read distance, time and instructions from the first path with plain
dict indexing, so a missing field raises a KeyError that nothing catches
(modelled as the Except error; the background thread dies).  The map-update
and Google-Maps bookkeeping of the source touch only presentation state and
are not part of the outcome.  The first component counts the invocations of
the route client get_route (0 or 1). -/
def calculate_route (key : PyKey) (startLoc endLoc vehicle : String)
    (w : World) : Nat × Except PyExc CalcOutcome :=
  match geocode key startLoc w.geoOrig with
  | (_, .err m) => (0, .ok (.failed m))
  | (_, .ok slat slng _) =>
    match geocode key endLoc w.geoDest with
    | (_, .err m) => (0, .ok (.failed m))
    | (_, .ok elat elng _) =>
      match get_route key (.dict (some slat) (some slng))
          (.dict (some elat) (some elng)) vehicle w.route with
      | (_, .err m) => (1, .ok (.failed m))
      | (_, .ok data) =>
        match data.paths with
        | none => (1, .error (.keyErr "paths"))
        | some [] => (1, .error .indexErr)
        | some (path :: _) =>
          match path.distance with
          | none => (1, .error (.keyErr "distance"))
          | some dist =>
            match path.time with
            | none => (1, .error (.keyErr "time"))
            | some time =>
              match path.instructions with
              | none => (1, .error (.keyErr "instructions"))
              | some instructions =>
                let distance_km := dist.div 1000
                let time_min := time.div 60000
                let distText := Q.formatFixed distance_km 2 ++ " km"
                let timeText :=
                  if Q.ble 60 time_min then
                    let hours := (time_min.div 60).floorInt
                    let mins := (time_min.sub (Q.ofInt (hours * 60))).floorInt
                    Nat.repr hours.natAbs ++ "h " ++ Nat.repr mins.natAbs ++ "m"
                  else Q.formatFixed time_min 0 ++ " min"
                match instrText 1 instructions with
                | .error e => (1, .error e)
                | .ok dirText => (1, .ok (.done distText timeText dirText))

end FT2

/-- One entry of the hits array as the CLI variant reads it: it additionally
requires the osm_value field, which it reads with plain indexing. -/
structure MQGeoHit where
  point : Option GeoPoint
  name : Option String
  osm_value : Option String
  country : Option String
  state : Option String
deriving DecidableEq

/-- Parsed body of a geocoding response for the CLI variant. -/
structure MQGeoData where
  hits : Option (List MQGeoHit)
  message : Option String
deriving DecidableEq

namespace MQ

/-- MapQuestEnhanced.format_distance of graphhopper_parse-json_7.py (lines
46-59); unit_system is the instance attribute chosen at startup. -/
def format_distance (unit_system : String) (meters : Q) : String :=
  if unit_system = "metric" then
    if Q.ble 1000 meters then Q.formatFixed (meters.div 1000) 1 ++ " km"
    else Q.formatFixed meters 0 ++ " m"
  else
    let miles := meters.div (Q.mk2 160934 100)
    if Q.ble (Q.mk2 1 10) miles then Q.formatFixed miles 1 ++ " miles"
    else Q.formatFixed (meters.mul (Q.mk2 328084 100000)) 0 ++ " ft"

/-- Return value of MapQuestEnhanced.geocoding: the quadruple of Nones that
every failure path returns (the printed diagnostics differ between those
paths but are not returned), or the populated quadruple. -/
inductive GeocodingRes where
  | failed
  | ok (status : Nat) (lat lng : Q) (newLoc : String)
deriving DecidableEq

/-- MapQuestEnhanced.geocoding of graphhopper_parse-json_7.py (lines 84-135).
An empty or whitespace-only location returns the failure quadruple before
any request.  Every exception of the try block - including the KeyError a
missing hits, point, lat, lng, name or osm_value field raises - is caught
and collapses into the same failure value, as do a non-200 status and an
empty hits array.  Unlike the GUI variants, the display name is built
conditionally: all three of name, state and country when state and country
are both nonempty, name and country when only country is nonempty, and the
bare name alone otherwise; there is no Unknown default for the name, whose
absence is a caught KeyError. -/
def geocoding (location : String) (net : NetResp MQGeoData) : GeocodingRes :=
  if location = "" ∨ pyStrip location = "" then .failed
  else match net with
  | .exc _ => .failed
  | .resp status body =>
    match body with
    | .badJson _ => .failed
    | .nonDict _ => .failed
    | .dict data =>
      if status = 200 then
        match data.hits with
        | none => .failed
        | some [] => .failed
        | some (hit :: _) =>
          match hit.point with
          | none => .failed
          | some pt =>
            match pt.lat, pt.lng with
            | some la, some ln =>
              match hit.name with
              | none => .failed
              | some name =>
                match hit.osm_value with
                | none => .failed
                | some _ =>
                  let country := hit.country.getD ""
                  let state := hit.state.getD ""
                  let new_loc :=
                    if state ≠ "" ∧ country ≠ "" then
                      name ++ ", " ++ state ++ ", " ++ country
                    else if country ≠ "" then name ++ ", " ++ country
                    else name
                  .ok status la ln new_loc
            | _, _ => .failed
      else .failed

end MQ

/-- Modelled from the spec: the display name the specification prescribes, a
join with a comma-space separator of exactly those fields among name, state
and country that are present and non-empty.  Used only to compare the
specified composition with the one the code computes. -/
def specDisplayName (name state country : String) : String :=
  String.intercalate ", " (([name, state, country]).filter (fun s => s != ""))

/-- Well-formedness of one instruction entry as display_results of
fantastic-tour.py tests it: a dict with both a text and a distance field. -/
def instrWellFormed : InstrItem → Bool
  | .nonDict => false
  | .item (some _) (some _) => true
  | .item _ _ => false

/-- Bad-key condition of claim C10: the configured key is None, is not a string,
or is a string of only whitespace. -/
def keyBad (key : PyKey) : Prop :=
  key = .pyNone ∨ (∃ t, key = .nonStr t) ∨ (∃ s, key = .str s ∧ pyStrip s = "")

/-- Reflexivity of Python value equality on the embedded rationals. -/
lemma Q.beq_refl (a : Q) : Q.beq a a = true := by
  simp [Q.beq]

/-- An alphabetic character is boolean-unequal to any non-alphabetic one, in
both orders. -/
lemma beq_false_of_isAlpha {c x : Char} (h : c.isAlpha = true)
    (hx : x.isAlpha = false) : (c == x) = false ∧ (x == c) = false := by
  constructor
  · cases hbe : c == x with
    | false => rfl
    | true =>
      have hcx : c = x := eq_of_beq hbe
      rw [hcx] at h
      rw [h] at hx
      exact Bool.noConfusion hx
  · cases hbe : x == c with
    | false => rfl
    | true =>
      have hcx : x = c := eq_of_beq hbe
      rw [← hcx] at h
      rw [h] at hx
      exact Bool.noConfusion hx

/-- Alphabetic characters are not Python whitespace. -/
lemma pyWs_false_of_isAlpha {c : Char} (h : c.isAlpha = true) : pyWs c = false := by
  unfold pyWs
  rw [(beq_false_of_isAlpha h (by decide)).1, (beq_false_of_isAlpha h (by decide)).1,
      (beq_false_of_isAlpha h (by decide)).1, (beq_false_of_isAlpha h (by decide)).1,
      (beq_false_of_isAlpha h (by decide)).1, (beq_false_of_isAlpha h (by decide)).1]
  rfl

/-- Two strings differ when the first begins with a character the second does
not begin with; used to separate message families built by concatenation. -/
lemma append_ne_of_data (p s t : String) (c : Char) (rest : List Char)
    (hp : p.data = c :: rest) (ht : ¬ t.data.head? = some c) : ¬ p ++ s = t := by
  intro h
  apply ht
  rw [← h]
  show (p ++ s).data.head? = some c
  rw [String.data_append, hp]
  rfl

/-- No branch of the network phase of get_route in fantastic-tour.py produces
the out-of-range coordinate message. -/
lemma get_route_request_ne_invalid (net : NetResp RouteData) :
    ¬ FT.get_route_request net = .err "Invalid coordinate values." := by
  cases net with
  | exc e =>
    cases e with
    | timeout s => simp [FT.get_route_request]
    | connError s => simp [FT.get_route_request]
    | reqExc s =>
      simp only [FT.get_route_request]
      intro h
      exact append_ne_of_data "Network error during routing: " s
        "Invalid coordinate values." 'N' _ rfl (by decide) (RouteRes.err.inj h)
    | otherExc s =>
      simp only [FT.get_route_request]
      intro h
      exact append_ne_of_data "Unexpected routing error: " s
        "Invalid coordinate values." 'U' _ rfl (by decide) (RouteRes.err.inj h)
  | resp status body =>
    simp only [FT.get_route_request]
    split_ifs with h1 h2 h3 h4 h5
    · simp
    · simp
    · simp
    · simp
    · intro h
      exact append_ne_of_data "Routing API returned status code: " (Nat.repr status)
        "Invalid coordinate values." 'R' _ rfl (by decide) (RouteRes.err.inj h)
    · cases body with
      | badJson s => simp
      | nonDict s => simp
      | dict data =>
        cases hp : data.paths with
        | none => simp [hp]
        | some l =>
          cases l with
          | nil => simp [hp]
          | cons path rest =>
            cases hd : path.distance <;> cases ht : path.time <;> simp [hp, hd, ht]

/-- The only message validate_vehicle_type can fail with. -/
lemma validate_vehicle_type_msg (v m : String)
    (h : FT.validate_vehicle_type v = some m) :
    m = "Invalid vehicle type. Must be one of: car, bike, foot" := by
  unfold FT.validate_vehicle_type at h
  split_ifs at h
  exact (Option.some.inj h).symm

/-- The only two messages validate_api_key can fail with. -/
lemma validate_api_key_msg (k : PyKey) (m : String)
    (h : FT.validate_api_key k = some m) :
    m = "API key not found. Please check your .env file."
      ∨ m = "Invalid API key format." := by
  cases k with
  | pyNone => exact Or.inl (Option.some.inj h).symm
  | str s =>
    simp only [FT.validate_api_key] at h
    split_ifs at h
    · exact Or.inl (Option.some.inj h).symm
    · exact Or.inr (Option.some.inj h).symm
  | nonStr t =>
    simp only [FT.validate_api_key] at h
    split_ifs at h
    · exact Or.inr (Option.some.inj h).symm
    · exact Or.inl (Option.some.inj h).symm

/-- Once both coordinate pairs pass the range check, no later branch of
get_route in fantasticTour.py produces the out-of-range coordinate message. -/
lemma ft2_tail_ne_invalid (key : PyKey) (sla sln ela eln : Q) (vehicle : String)
    (net : NetResp RouteData)
    (hb : (coordInRange sla sln && coordInRange ela eln) = true) :
    ¬ (FT2.get_route key (.dict (some sla) (some sln)) (.dict (some ela) (some eln))
        vehicle net).2 = .err "Invalid coordinate values." := by
  intro h
  simp only [FT2.get_route, hb, Bool.not_true, Bool.false_eq_true, if_false] at h
  rcases hv : FT2.validate_vehicle_type vehicle with _ | m
  · rw [hv] at h
    rcases hk : FT2.validate_api_key key with _ | m
    · rw [hk] at h
      cases net with
      | exc e =>
        simp only at h
        exact append_ne_of_data "Unexpected routing error: " e.msg
          "Invalid coordinate values." 'U' _ rfl (by decide) (RouteRes.err.inj h)
      | resp status body =>
        simp only at h
        split_ifs at h with h1
        · exact append_ne_of_data "Routing API returned status code: "
            (Nat.repr status) "Invalid coordinate values." 'R' _ rfl (by decide)
            (RouteRes.err.inj h)
        · cases body with
          | badJson s =>
            simp only at h
            exact append_ne_of_data "Unexpected routing error: " s
              "Invalid coordinate values." 'U' _ rfl (by decide) (RouteRes.err.inj h)
          | nonDict s =>
            simp only at h
            exact append_ne_of_data "Unexpected routing error: " s
              "Invalid coordinate values." 'U' _ rfl (by decide) (RouteRes.err.inj h)
          | dict data =>
            rcases hp : data.paths with _ | (_ | ⟨path, rest⟩) <;> simp [hp] at h
    · rw [hk] at h
      have := validate_api_key_msg key m hk
      have hm : m = "Invalid coordinate values." := RouteRes.err.inj (by
        exact congrArg id h)
      rcases this with e | e <;> (rw [hm] at e; exact absurd e (by decide))
  · rw [hv] at h
    have hmv : m = "Invalid vehicle type. Must be one of: car, bike, foot" := by
      simp only [FT2.validate_vehicle_type] at hv
      split_ifs at hv
      exact (Option.some.inj hv).symm
    have hm : m = "Invalid coordinate values." := RouteRes.err.inj h
    rw [hm] at hmv
    exact absurd hmv (by decide)

/-- Every successful result of the network phase of geocode in fantastic-tour.py
carries coordinates inside the valid ranges. -/
lemma geocode_request_ok_inRange (loc : String) (net : NetResp GeoData)
    (lat lng : Q) (nm : String)
    (h : FT.geocode_request loc net = .ok lat lng nm) :
    coordInRange lat lng = true := by
  cases net with
  | exc e => cases e <;> simp [FT.geocode_request] at h
  | resp status body =>
    simp only [FT.geocode_request] at h
    split_ifs at h with h1 h2 h3 h4 h5
    cases body with
    | badJson s => simp at h
    | nonDict s => simp at h
    | dict data =>
      cases hh : data.hits with
      | none => simp [hh] at h
      | some l =>
        cases l with
        | nil =>
          cases hm : data.message <;> simp [hh, hm] at h
        | cons hit rest =>
          simp only [hh] at h
          cases hpt : hit.point with
          | none => simp [hpt] at h
          | some pt =>
            simp only [hpt] at h
            cases hla : pt.lat with
            | none => simp [hla] at h
            | some la =>
              cases hln : pt.lng with
              | none => simp [hla, hln] at h
              | some ln =>
                simp only [hla, hln] at h
                split_ifs at h with hr
                injection h with e1 e2 e3
                subst e1
                subst e2
                cases hcr : coordInRange la ln
                · rw [hcr] at hr
                  exact absurd rfl hr
                · rfl

/-- dropWhile leaves a list whole when its first element does not satisfy the
predicate. -/
lemma dropWhile_eq_self_of_head {p : Char → Bool} {l : List Char}
    (h : ∀ c, l.head? = some c → p c = false) : l.dropWhile p = l := by
  cases l with
  | nil => rfl
  | cons c t => simp [List.dropWhile_cons, h c rfl]

/-- Stripping is the identity on a string whose first and last characters are
outside the stripped set. -/
lemma stripBy_eq_self {p : Char → Bool} (s : String) (c d : Char)
    (hhead : s.data.head? = some c) (hc : p c = false)
    (hlast : s.data.getLast? = some d) (hd : p d = false) :
    stripBy p s = s := by
  unfold stripBy
  have h1 : s.data.dropWhile p = s.data :=
    dropWhile_eq_self_of_head (fun x hx => by
      rw [hhead] at hx
      injection hx with e
      rw [← e]
      exact hc)
  rw [h1]
  have h2 : s.data.reverse.dropWhile p = s.data.reverse :=
    dropWhile_eq_self_of_head (fun x hx => by
      rw [List.head?_reverse, hlast] at hx
      injection hx with e
      rw [← e]
      exact hd)
  rw [h2, List.reverse_reverse]

/-- The instruction loop renders exactly one line per well-formed entry,
whatever the start index. -/
lemma instrLines_length_aux (unit : String) (n : Nat) (l : List InstrItem) :
    ((List.enumFrom n l).filterMap (fun p =>
      match p.2 with
      | .nonDict => none
      | .item txt dst =>
        match txt, dst with
        | some t, some d => some (FT.renderLine unit p.1 t d)
        | _, _ => none)).length = (l.filter instrWellFormed).length := by
  induction l generalizing n with
  | nil => rfl
  | cons it tl ih =>
    cases it with
    | nonDict =>
      simp only [List.enumFrom, List.filterMap, List.filter, instrWellFormed]
      exact ih (n + 1)
    | item txt dst =>
      cases txt with
      | none =>
        simp only [List.enumFrom, List.filterMap, List.filter, instrWellFormed]
        exact ih (n + 1)
      | some t =>
        cases dst with
        | none =>
          simp only [List.enumFrom, List.filterMap, List.filter, instrWellFormed]
          exact ih (n + 1)
        | some d =>
          simp only [List.enumFrom, List.filterMap, List.filter, instrWellFormed,
            List.length_cons]
          rw [ih (n + 1)]

/-- The rendered instruction lines of display_results are in bijection with the
well-formed entries. -/
lemma instrLines_length (unit : String) (l : List InstrItem) :
    (FT.instrLines unit l).length = (l.filter instrWellFormed).length :=
  instrLines_length_aux unit 1 l

/-- Claim C1 (amended to the fantastic-tour.py workflow): when origin and
destination geocode to bit-identical coordinates, get_route_logic ends in
the SameLocation outcome and the route client get_route is invoked zero
times, so no routing success is produced. -/
theorem C1_theorem (key : PyKey) (startEntry destEntry vehicle : String)
    (w : World) (c c' : Nat) (lat lng : Q) (n n' : String)
    (ho : FT.geocode key (pyStrip startEntry) w.geoOrig = (c, .ok lat lng n))
    (hd : FT.geocode key (pyStrip destEntry) w.geoDest = (c', .ok lat lng n')) :
    FT.get_route_logic key startEntry destEntry vehicle w = (0, .sameLoc) := by
  simp only [FT.get_route_logic]
  rw [ho, hd]
  simp [Q.beq_refl]

/-- Witness for C1_theorem: a concrete stubbed world in which both geocode calls
resolve to (10, 20). -/
theorem C1_witness :
    FT.geocode (.str "k") (pyStrip " Manila ")
      (NetResp.resp 200 (HttpBody.dict
        ⟨some [⟨some ⟨some 10, some 20⟩, some "Alpha", some "PH", some "NCR"⟩], none⟩))
      = (1, .ok 10 20 "Alpha, NCR, PH") ∧
    FT.get_route_logic (.str "k") " Manila " "Quezon" "car"
      ⟨.resp 200 (.dict ⟨some [⟨some ⟨some 10, some 20⟩, some "Alpha", some "PH", some "NCR"⟩], none⟩),
       .resp 200 (.dict ⟨some [⟨some ⟨some 10, some 20⟩, some "Alpha", some "PH", some "NCR"⟩], none⟩),
       .resp 200 (.dict ⟨some [⟨some 5000, some 600000, none, none⟩], none⟩)⟩
      = (0, .sameLoc) :=
  ⟨by decide, C1_theorem _ _ _ _ _ 1 1 10 20 "Alpha, NCR, PH" "Alpha, NCR, PH"
    (by decide) (by decide)⟩

/-- Counterexample to claim C1 as stated: in fantasticTour.py the route-planning
workflow calculate_route, given geocode stubs resolving origin and
destination to the identical pair (10, 20), invokes the route client once
(count 1) and produces a successful outcome, not SameLocation. -/
theorem C1_counterexample :
    FT2.geocode (.str "k") "Manila"
      (.resp 200 (.dict ⟨some [⟨some ⟨some 10, some 20⟩, some "Alpha", some "PH", some "NCR"⟩], none⟩))
      = (1, .ok 10 20 "Alpha, NCR, PH") ∧
    FT2.geocode (.str "k") "Quezon"
      (.resp 200 (.dict ⟨some [⟨some ⟨some 10, some 20⟩, some "Alpha", some "PH", some "NCR"⟩], none⟩))
      = (1, .ok 10 20 "Alpha, NCR, PH") ∧
    FT2.calculate_route (.str "k") "Manila" "Quezon" "car"
      ⟨.resp 200 (.dict ⟨some [⟨some ⟨some 10, some 20⟩, some "Alpha", some "PH", some "NCR"⟩], none⟩),
       .resp 200 (.dict ⟨some [⟨some ⟨some 10, some 20⟩, some "Alpha", some "PH", some "NCR"⟩], none⟩),
       .resp 200 (.dict ⟨some [⟨some 5000, some 600000,
         some [.item (some "Head north") (some 200)], none⟩], none⟩)⟩
      = (1, Except.ok (.done "5.00 km" "10 min" "1. Head north\n")) := by
  refine ⟨by decide, by decide, by decide⟩

/-- Claim C2 (amended to the fantastic-tour.py client): every coordinate pair
carried by a successful geocode is inside the valid ranges, and on a 200
response with a first hit whose point lacks lat or lng the client fails with
the malformed-coordinate-data message, while a present but out-of-range pair
fails with the invalid-coordinate-values message. -/
theorem C2_theorem :
    (∀ (key : PyKey) (loc : String) (net : NetResp GeoData) (c : Nat)
       (lat lng : Q) (nm : String),
       FT.geocode key loc net = (c, .ok lat lng nm) → coordInRange lat lng = true) ∧
    (∀ (key : PyKey) (loc : String) (data : GeoData) (hit : GeoHit)
       (rest : List GeoHit) (pt : GeoPoint),
       FT.validate_location_input loc = none →
       FT.validate_api_key key = none →
       data.hits = some (hit :: rest) →
       hit.point = some pt →
       ((pt.lat = none ∨ pt.lng = none) →
          FT.geocode key loc (.resp 200 (.dict data))
            = (1, .err "Invalid coordinate data in API response.")) ∧
       (∀ la ln, pt.lat = some la → pt.lng = some ln →
          coordInRange la ln = false →
          FT.geocode key loc (.resp 200 (.dict data))
            = (1, .err "Invalid coordinate values received."))) := by
  constructor
  · intro key loc net c lat lng nm h
    unfold FT.geocode at h
    rcases hv : FT.validate_location_input loc with _ | m
    · rw [hv] at h
      rcases hk : FT.validate_api_key key with _ | m
      · rw [hk] at h
        have h2 : FT.geocode_request loc net = .ok lat lng nm :=
          (Prod.mk.inj h).2
        exact geocode_request_ok_inRange loc net lat lng nm h2
      · rw [hk] at h
        exact absurd (Prod.mk.inj h).2 (by simp)
    · rw [hv] at h
      exact absurd (Prod.mk.inj h).2 (by simp)
  · intro key loc data hit rest pt hv hk hh hpt
    constructor
    · intro hmiss
      unfold FT.geocode
      rw [hv, hk]
      simp only [FT.geocode_request]
      norm_num
      simp only [hh, hpt]
      rcases hmiss with hm | hm
      · simp [hm]
      · cases hla : pt.lat <;> simp [hla, hm]
    · intro la ln hla hln hrange
      unfold FT.geocode
      rw [hv, hk]
      simp only [FT.geocode_request]
      norm_num
      simp [hh, hpt, hla, hln, hrange]

/-- Witness for C2_theorem: concrete 200 responses with an out-of-range and with
a missing latitude. -/
theorem C2_witness :
    FT.geocode (.str "k") "Manila"
      (.resp 200 (.dict ⟨some [⟨some ⟨some 200, some 0⟩, some "X", none, none⟩], none⟩))
      = (1, .err "Invalid coordinate values received.") ∧
    FT.geocode (.str "k") "Manila"
      (.resp 200 (.dict ⟨some [⟨some ⟨none, some 0⟩, some "X", none, none⟩], none⟩))
      = (1, .err "Invalid coordinate data in API response.") :=
  ⟨(C2_theorem.2 (.str "k") "Manila" _ _ [] _ (by decide) (by decide) rfl rfl).2
      200 0 rfl rfl (by decide),
   (C2_theorem.2 (.str "k") "Manila" _ _ [] _ (by decide) (by decide) rfl rfl).1
      (Or.inl rfl)⟩

/-- Counterexample to claim C2 as stated: the geocode of fantasticTour.py
returns Success for a 200 response whose first hit has latitude 100, which
is out of range. -/
theorem C2_counterexample :
    FT2.geocode (.str "k") "Manila"
      (.resp 200 (.dict ⟨some [⟨some ⟨some 100, some 0⟩, some "X", none, none⟩], none⟩))
      = (1, .ok 100 0 "X") ∧
    Q.ble (100 : Q) 90 = false := by
  refine ⟨by decide, by decide⟩

/-- Claim C3 (amended, scoped to the two cited sources): in fantastic-tour.py
the display name is the comma-space join of all three of name, state and
country with comma and space characters stripped from the two ends only, so
when the name begins and the country ends with a character outside that set
the join is returned verbatim - an empty state leaves an empty segment
between the separators - and a missing name defaults to Unknown. In
graphhopper_parse-json_7.py the join is conditional instead: all three
fields when state and country are both nonempty, name and country when only
country is nonempty, and the bare name alone otherwise (a nonempty state
with empty country is dropped), while a missing name field is a caught
KeyError that fails the whole call - there is no Unknown default. -/
theorem C3_theorem :
    (∀ (key : PyKey) (loc : String) (data : GeoData) (hit : GeoHit)
       (rest : List GeoHit) (pt : GeoPoint) (la ln : Q) (n st c : String)
       (ch cl : Char) (ntail : List Char),
       FT.validate_location_input loc = none →
       FT.validate_api_key key = none →
       data.hits = some (hit :: rest) →
       hit.point = some pt →
       pt.lat = some la → pt.lng = some ln →
       coordInRange la ln = true →
       hit.name.getD "Unknown" = n → hit.state.getD "" = st →
       hit.country.getD "" = c →
       n.data = ch :: ntail → csChar ch = false →
       c.data.getLast? = some cl → csChar cl = false →
       FT.geocode key loc (.resp 200 (.dict data)) =
         (1, .ok la ln (n ++ ", " ++ st ++ ", " ++ c))) ∧
    (∀ (loc : String) (data : MQGeoData) (hit : MQGeoHit)
       (rest : List MQGeoHit) (pt : GeoPoint) (la ln : Q) (v : String),
       ¬(loc = "" ∨ pyStrip loc = "") →
       data.hits = some (hit :: rest) →
       hit.point = some pt →
       pt.lat = some la → pt.lng = some ln →
       hit.osm_value = some v →
       (∀ name, hit.name = some name →
          (hit.state.getD "" ≠ "" → hit.country.getD "" ≠ "" →
            MQ.geocoding loc (.resp 200 (.dict data))
              = .ok 200 la ln
                  (name ++ ", " ++ hit.state.getD "" ++ ", " ++ hit.country.getD "")) ∧
          (hit.state.getD "" = "" → hit.country.getD "" ≠ "" →
            MQ.geocoding loc (.resp 200 (.dict data))
              = .ok 200 la ln (name ++ ", " ++ hit.country.getD "")) ∧
          (hit.country.getD "" = "" →
            MQ.geocoding loc (.resp 200 (.dict data)) = .ok 200 la ln name)) ∧
       (hit.name = none →
          MQ.geocoding loc (.resp 200 (.dict data)) = .failed)) := by
  constructor
  · intro key loc data hit rest pt la ln n st c ch cl ntail
      hv hk hh hpt hla hln hrange hn hst hc hhead hch hlast hcl
    have hfull : stripCS (n ++ ", " ++ st ++ ", " ++ c)
        = n ++ ", " ++ st ++ ", " ++ c := by
      apply stripBy_eq_self _ ch cl
      · show (n ++ ", " ++ st ++ ", " ++ c).data.head? = some ch
        rw [String.data_append, String.data_append, String.data_append,
          String.data_append, hhead]
        rfl
      · exact hch
      · show (n ++ ", " ++ st ++ ", " ++ c).data.getLast? = some cl
        rw [String.data_append]
        rw [List.getLast?_append_of_ne_nil _ (fun e => by
          rw [e] at hlast
          exact Option.noConfusion hlast)]
        exact hlast
      · exact hcl
    unfold FT.geocode
    rw [hv, hk]
    simp only [FT.geocode_request]
    norm_num
    simp [hh, hpt, hla, hln, hrange, hn, hst, hc, hfull]
  · intro loc data hit rest pt la ln v hloc hh hpt hla hln hosm
    have hred : MQ.geocoding loc (.resp 200 (.dict data))
        = (match hit.name with
           | none => MQ.GeocodingRes.failed
           | some name =>
             MQ.GeocodingRes.ok 200 la ln
               (if hit.state.getD "" ≠ "" ∧ hit.country.getD "" ≠ "" then
                  name ++ ", " ++ hit.state.getD "" ++ ", " ++ hit.country.getD ""
                else if hit.country.getD "" ≠ "" then
                  name ++ ", " ++ hit.country.getD ""
                else name)) := by
      simp only [MQ.geocoding]
      rw [if_neg hloc]
      simp [hh, hpt, hla, hln, hosm]
    constructor
    · intro name hname
      rw [hname] at hred
      have hredS : MQ.geocoding loc (.resp 200 (.dict data))
          = MQ.GeocodingRes.ok 200 la ln
              (if hit.state.getD "" ≠ "" ∧ hit.country.getD "" ≠ "" then
                 name ++ ", " ++ hit.state.getD "" ++ ", " ++ hit.country.getD ""
               else if hit.country.getD "" ≠ "" then
                 name ++ ", " ++ hit.country.getD ""
               else name) := hred
      refine ⟨?_, ?_, ?_⟩
      · intro h1 h2
        rw [hredS, if_pos ⟨h1, h2⟩]
      · intro h1 h2
        rw [hredS, if_neg (fun hcon => hcon.1 h1), if_pos h2]
      · intro h1
        by_cases h2 : hit.state.getD "" ≠ ""
        · rw [hredS, if_neg (fun hcon => absurd h1 (by simp [hcon.2])),
            if_neg (fun hcon => hcon h1)]
        · rw [hredS, if_neg (fun hcon => h2 hcon.1), if_neg (fun hcon => hcon h1)]
    · intro hname
      rw [hname] at hred
      exact hred

/-- Witness for C3_theorem: a concrete fantastic-tour.py hit with empty state
keeping the empty middle segment, and concrete CLI hits showing the
conditional join (empty state giving name-comma-country, empty country
dropping a nonempty state) and the failure on a missing name. -/
theorem C3_witness :
    FT.geocode (.str "k") "Sample City"
      (.resp 200 (.dict ⟨some [⟨some ⟨some 10, some 20⟩, some "Manila",
        some "Philippines", some ""⟩], none⟩))
      = (1, .ok 10 20 "Manila, , Philippines") ∧
    MQ.geocoding "Sample City"
      (.resp 200 (.dict ⟨some [⟨some ⟨some 10, some 20⟩, some "Manila",
        some "building", some "Philippines", some ""⟩], none⟩))
      = .ok 200 10 20 "Manila, Philippines" ∧
    MQ.geocoding "Sample City"
      (.resp 200 (.dict ⟨some [⟨some ⟨some 10, some 20⟩, some "Manila",
        some "building", none, some "NCR"⟩], none⟩))
      = .ok 200 10 20 "Manila" ∧
    MQ.geocoding "Sample City"
      (.resp 200 (.dict ⟨some [⟨some ⟨some 10, some 20⟩, none,
        some "building", some "Philippines", some "NCR"⟩], none⟩))
      = .failed := by
  refine ⟨?_, ?_, ?_, ?_⟩
  · exact C3_theorem.1 (.str "k") "Sample City"
      ⟨some [⟨some ⟨some 10, some 20⟩, some "Manila", some "Philippines", some ""⟩], none⟩
      ⟨some ⟨some 10, some 20⟩, some "Manila", some "Philippines", some ""⟩
      [] ⟨some 10, some 20⟩ 10 20 "Manila" "" "Philippines" 'M' 's' "anila".data
      (by decide) (by decide) rfl rfl rfl rfl (by decide) rfl rfl rfl rfl
      (by decide) (by decide) (by decide)
  · exact ((C3_theorem.2 "Sample City"
      ⟨some [⟨some ⟨some 10, some 20⟩, some "Manila", some "building",
        some "Philippines", some ""⟩], none⟩
      ⟨some ⟨some 10, some 20⟩, some "Manila", some "building",
        some "Philippines", some ""⟩
      [] ⟨some 10, some 20⟩ 10 20 "building"
      (by decide) rfl rfl rfl rfl rfl).1 "Manila" rfl).2.1 (by decide) (by decide)
  · exact ((C3_theorem.2 "Sample City"
      ⟨some [⟨some ⟨some 10, some 20⟩, some "Manila", some "building",
        none, some "NCR"⟩], none⟩
      ⟨some ⟨some 10, some 20⟩, some "Manila", some "building", none, some "NCR"⟩
      [] ⟨some 10, some 20⟩ 10 20 "building"
      (by decide) rfl rfl rfl rfl rfl).1 "Manila" rfl).2.2 (by decide)
  · exact (C3_theorem.2 "Sample City"
      ⟨some [⟨some ⟨some 10, some 20⟩, none, some "building",
        some "Philippines", some "NCR"⟩], none⟩
      ⟨some ⟨some 10, some 20⟩, none, some "building", some "Philippines", some "NCR"⟩
      [] ⟨some 10, some 20⟩ 10 20 "building"
      (by decide) rfl rfl rfl rfl rfl).2 rfl

/-- Counterexample to claim C3 as stated: with name Manila, empty state and
country Philippines the code produces a display name with an empty segment
between separators, while the join of the present non-empty fields
prescribed by the claim omits it. -/
theorem C3_counterexample :
    FT.geocode (.str "k") "Sample Town"
      (.resp 200 (.dict ⟨some [⟨some ⟨some 10, some 20⟩, some "Manila",
        some "Philippines", some ""⟩], none⟩))
      = (1, .ok 10 20 "Manila, , Philippines") ∧
    specDisplayName "Manila" "" "Philippines" = "Manila, Philippines" ∧
    ("Manila, , Philippines" : String) ≠ "Manila, Philippines" := by
  refine ⟨by decide, by decide, by decide⟩

/-- Claim C4 (amended to the fantastic-tour.py client): on a 200 routing
response whose first path lacks the distance or the time field get_route
fails with the incomplete-route-data message, with no path entries it fails
with the no-route-path message, and every success carries the response data
whose first path has both fields. -/
theorem C4_theorem (key : PyKey) (sla sln ela eln : Q) (vehicle : String)
    (data : RouteData)
    (hr1 : coordInRange sla sln = true) (hr2 : coordInRange ela eln = true)
    (hveh : FT.validate_vehicle_type vehicle = none)
    (hkey : FT.validate_api_key key = none) :
    (∀ path rest, data.paths = some (path :: rest) →
       (path.distance = none ∨ path.time = none) →
       FT.get_route key (.dict (some sla) (some sln)) (.dict (some ela) (some eln))
           vehicle (.resp 200 (.dict data))
         = (1, .err "Incomplete route data in response.")) ∧
    ((data.paths = none ∨ data.paths = some []) →
       FT.get_route key (.dict (some sla) (some sln)) (.dict (some ela) (some eln))
           vehicle (.resp 200 (.dict data))
         = (1, .err "No route path found in response.")) ∧
    (∀ d, FT.get_route key (.dict (some sla) (some sln)) (.dict (some ela) (some eln))
           vehicle (.resp 200 (.dict data)) = (1, .ok d) →
       d = data ∧ ∃ path rest, data.paths = some (path :: rest)
         ∧ path.distance ≠ none ∧ path.time ≠ none) := by
  have hred : FT.get_route key (.dict (some sla) (some sln))
      (.dict (some ela) (some eln)) vehicle (.resp 200 (.dict data))
      = (1, FT.get_route_request (.resp 200 (.dict data))) := by
    simp [FT.get_route, hr1, hr2, hveh, hkey]
  refine ⟨?_, ?_, ?_⟩
  · intro path rest hp hmiss
    rw [hred]
    simp only [FT.get_route_request]
    norm_num
    rcases hmiss with hm | hm
    · simp [hp, hm]
    · cases hd : path.distance <;> simp [hp, hd, hm]
  · intro hp
    rw [hred]
    simp only [FT.get_route_request]
    norm_num
    rcases hp with hp | hp <;> simp [hp]
  · intro d h
    rw [hred] at h
    have h2 : FT.get_route_request (.resp 200 (.dict data)) = .ok d :=
      (Prod.mk.inj h).2
    simp only [FT.get_route_request] at h2
    norm_num at h2
    rcases hp : data.paths with _ | l
    · simp [hp] at h2
    · cases l with
      | nil => simp [hp] at h2
      | cons path rest =>
        simp only [hp] at h2
        cases hd : path.distance with
        | none => simp [hd] at h2
        | some dv =>
          cases ht : path.time with
          | none => simp [hd, ht] at h2
          | some tv =>
            simp only [hd, ht] at h2
            injection h2 with e
            exact ⟨e.symm, path, rest, rfl, by simp [hd], by simp [ht]⟩

/-- Witness for C4_theorem: concrete 200 responses with a distance-less path and
with no paths. -/
theorem C4_witness :
    FT.get_route (.str "k") (.dict (some 10) (some 20)) (.dict (some 11) (some 21))
      "car" (.resp 200 (.dict ⟨some [⟨none, some 600000, none, none⟩], none⟩))
      = (1, .err "Incomplete route data in response.") ∧
    FT.get_route (.str "k") (.dict (some 10) (some 20)) (.dict (some 11) (some 21))
      "car" (.resp 200 (.dict ⟨none, none⟩))
      = (1, .err "No route path found in response.") :=
  ⟨(C4_theorem (.str "k") 10 20 11 21 "car" _ (by decide) (by decide) (by decide)
      (by decide)).1 ⟨none, some 600000, none, none⟩ [] rfl (Or.inl rfl),
   (C4_theorem (.str "k") 10 20 11 21 "car" _ (by decide) (by decide) (by decide)
      (by decide)).2.1 (Or.inl rfl)⟩

/-- Counterexample to claim C4 as stated: the get_route of fantasticTour.py
answers a 200 response whose first path lacks both distance and time with a
Success carrying that partially-populated path. -/
theorem C4_counterexample :
    FT2.get_route (.str "k") (.dict (some 10) (some 20)) (.dict (some 11) (some 21))
      "car" (.resp 200 (.dict ⟨some [⟨none, none, none, none⟩], none⟩))
      = (1, .ok ⟨some [⟨none, none, none, none⟩], none⟩) := by
  decide

/-- Claim C5: when validate_location_input rejects the input, geocode returns
that validation failure as a value and performs zero HTTP requests; and
every transport failure of the network phase of geocode and of get_route
(timeout, connection error, request exception, unexpected exception, non-
JSON body) is returned as a typed error value with its specific message - no
exception escapes. -/
theorem C5_theorem :
    (∀ (key : PyKey) (loc : String) (net : NetResp GeoData) (m : String),
       FT.validate_location_input loc = some m →
       FT.geocode key loc net = (0, .err m)) ∧
    (∀ (loc s : String),
       FT.geocode_request loc (.exc (.timeout s))
         = .err "Geocoding request timed out. Please try again." ∧
       FT.geocode_request loc (.exc (.connError s))
         = .err "Network connection error. Please check your internet connection." ∧
       FT.geocode_request loc (.exc (.reqExc s)) = .err ("Network error: " ++ s) ∧
       FT.geocode_request loc (.exc (.otherExc s)) = .err ("Unexpected error: " ++ s) ∧
       FT.geocode_request loc (.resp 200 (.badJson s))
         = .err "Invalid JSON response from server.") ∧
    (∀ s : String,
       FT.get_route_request (.exc (.timeout s))
         = .err "Routing request timed out. Please try again." ∧
       FT.get_route_request (.exc (.connError s))
         = .err "Network connection error during routing." ∧
       FT.get_route_request (.exc (.reqExc s))
         = .err ("Network error during routing: " ++ s) ∧
       FT.get_route_request (.exc (.otherExc s))
         = .err ("Unexpected routing error: " ++ s) ∧
       FT.get_route_request (.resp 200 (.badJson s))
         = .err "Invalid JSON response from routing service.") := by
  refine ⟨?_, ?_, ?_⟩
  · intro key loc net m h
    unfold FT.geocode
    rw [h]
  · intro loc s
    exact ⟨rfl, rfl, rfl, rfl, rfl⟩
  · intro s
    exact ⟨rfl, rfl, rfl, rfl, rfl⟩

/-- Witness for C5_theorem: the empty location with an arbitrary network
outcome. -/
theorem C5_witness :
    FT.validate_location_input "" = some "Location cannot be empty." ∧
    FT.geocode (.str "k") "" (.exc (.timeout "x"))
      = (0, .err "Location cannot be empty.") :=
  ⟨by decide, C5_theorem.1 (.str "k") "" (.exc (.timeout "x")) _ (by decide)⟩

/-- Claim C6: validate_location_input fails with the empty message exactly on
empty or whitespace-only strings, with the too-short message exactly when
the trimmed length is below 2, with the too-long message exactly when the
raw length exceeds 200, with the invalid-characters message exactly when one
of the six blacklisted characters occurs, succeeds exactly otherwise,
succeeds on every 2-character alphabetic string, and is the same function in
both GUI variants. -/
theorem C6_theorem (s : String) :
    (FT.validate_location_input s = some "Location cannot be empty."
       ↔ (s = "" ∨ pyStrip s = "")) ∧
    (FT.validate_location_input s = some "Location must be at least 2 characters long."
       ↔ ¬(s = "" ∨ pyStrip s = "") ∧ (pyStrip s).data.length < 2) ∧
    (FT.validate_location_input s = some "Location is too long (max 200 characters)."
       ↔ ¬(s = "" ∨ pyStrip s = "") ∧ ¬((pyStrip s).data.length < 2)
         ∧ s.data.length > 200) ∧
    (FT.validate_location_input s = some "Invalid characters in location."
       ↔ ¬(s = "" ∨ pyStrip s = "") ∧ ¬((pyStrip s).data.length < 2)
         ∧ ¬(s.data.length > 200)
         ∧ (['<', '>', ';', '|', '&', '$'].any (fun c => s.data.contains c)) = true) ∧
    (FT.validate_location_input s = none
       ↔ ¬(s = "" ∨ pyStrip s = "") ∧ ¬((pyStrip s).data.length < 2)
         ∧ ¬(s.data.length > 200)
         ∧ (['<', '>', ';', '|', '&', '$'].any (fun c => s.data.contains c)) = false) ∧
    (∀ c₁ c₂ : Char, c₁.isAlpha = true → c₂.isAlpha = true →
       FT.validate_location_input ⟨[c₁, c₂]⟩ = none) ∧
    FT2.validate_location_input s = FT.validate_location_input s := by
  refine ⟨?_, ?_, ?_, ?_, ?_, ?_, rfl⟩
  · unfold FT.validate_location_input
    split_ifs with h1 h2 h3 h4 <;> simp_all
  · unfold FT.validate_location_input
    split_ifs with h1 h2 h3 h4 <;> simp_all
  · unfold FT.validate_location_input
    split_ifs with h1 h2 h3 h4 <;> simp_all
  · unfold FT.validate_location_input
    split_ifs with h1 h2 h3 h4 <;> simp_all
  · unfold FT.validate_location_input
    split_ifs with h1 h2 h3 h4 <;> simp_all <;> tauto
  · intro c₁ c₂ h1 h2
    have hw1 := pyWs_false_of_isAlpha h1
    have hw2 := pyWs_false_of_isAlpha h2
    have hstrip : pyStrip ⟨[c₁, c₂]⟩ = ⟨[c₁, c₂]⟩ := by
      simp [pyStrip, stripBy, List.dropWhile, hw1, hw2]
    have hne : ¬((⟨[c₁, c₂]⟩ : String) = "" ∨ pyStrip ⟨[c₁, c₂]⟩ = "") := by
      rw [hstrip]
      intro h
      rcases h with h | h <;> exact absurd (congrArg String.data h) (by simp)
    have hne2 : ∀ x c : Char, c.isAlpha = true → x.isAlpha = false → ¬ x = c := by
      intro x c hc hx e
      rw [e] at hx
      rw [hc] at hx
      exact Bool.noConfusion hx
    unfold FT.validate_location_input
    rw [if_neg hne, hstrip]
    simp
    refine ⟨⟨?_, ?_⟩, ⟨?_, ?_⟩, ⟨?_, ?_⟩, ⟨?_, ?_⟩, ⟨?_, ?_⟩, ?_, ?_⟩ <;>
      first
        | exact hne2 _ _ h1 (by decide)
        | exact hne2 _ _ h2 (by decide)

/-- Witness for C6_theorem: the two-character alphabetic string ab. -/
theorem C6_witness :
    ('a').isAlpha = true ∧ ('b').isAlpha = true ∧
    FT.validate_location_input ⟨['a', 'b']⟩ = none :=
  ⟨by decide, by decide, ( C6_theorem "ab").2.2.2.2.2.1 'a' 'b' (by decide) (by decide)⟩

/-- Claim C7: for coordinate dicts with both fields present, get_route of both
GUI variants produces the invalid-coordinate-values failure exactly when
some endpoint is outside the inclusive ranges [-90, 90] and [-180, 180], and
the boundary values 90 and 180 (and -90 and -180) pass the range check. -/
theorem C7_theorem (key : PyKey) (sla sln ela eln : Q) (vehicle : String)
    (net : NetResp RouteData) :
    ((FT.get_route key (.dict (some sla) (some sln)) (.dict (some ela) (some eln))
        vehicle net).2 = .err "Invalid coordinate values."
      ↔ (coordInRange sla sln = false ∨ coordInRange ela eln = false)) ∧
    ((FT2.get_route key (.dict (some sla) (some sln)) (.dict (some ela) (some eln))
        vehicle net).2 = .err "Invalid coordinate values."
      ↔ (coordInRange sla sln = false ∨ coordInRange ela eln = false)) ∧
    coordInRange 90 180 = true ∧ coordInRange (-90) (-180) = true := by
  refine ⟨⟨?_, ?_⟩, ⟨?_, ?_⟩, by decide, by decide⟩
  · intro h
    by_contra hc
    push_neg at hc
    obtain ⟨hc1, hc2⟩ := hc
    have hb1 : coordInRange sla sln = true := by
      cases hb : coordInRange sla sln
      · exact absurd hb hc1
      · rfl
    have hb2 : coordInRange ela eln = true := by
      cases hb : coordInRange ela eln
      · exact absurd hb hc2
      · rfl
    simp only [FT.get_route, hb1, hb2, Bool.and_self, Bool.not_true,
      Bool.false_eq_true, if_false] at h
    rcases hv : FT.validate_vehicle_type vehicle with _ | m
    · rw [hv] at h
      rcases hk : FT.validate_api_key key with _ | m
      · rw [hk] at h
        exact get_route_request_ne_invalid net h
      · rw [hk] at h
        have := validate_api_key_msg key m hk
        have hm : m = "Invalid coordinate values." := RouteRes.err.inj h
        rcases this with e | e <;> (rw [hm] at e; exact absurd e (by decide))
    · rw [hv] at h
      have := validate_vehicle_type_msg vehicle m hv
      have hm : m = "Invalid coordinate values." := RouteRes.err.inj h
      rw [hm] at this
      exact absurd this (by decide)
  · intro h
    have hb : (coordInRange sla sln && coordInRange ela eln) = false := by
      rcases h with h | h <;> simp [h]
    simp [FT.get_route, hb]
  · intro h
    by_contra hc
    push_neg at hc
    obtain ⟨hc1, hc2⟩ := hc
    have hb1 : coordInRange sla sln = true := by
      cases hb : coordInRange sla sln
      · exact absurd hb hc1
      · rfl
    have hb2 : coordInRange ela eln = true := by
      cases hb : coordInRange ela eln
      · exact absurd hb hc2
      · rfl
    exact ft2_tail_ne_invalid key sla sln ela eln vehicle net
      (by rw [hb1, hb2]; rfl) h
  · intro h
    have hb : (coordInRange sla sln && coordInRange ela eln) = false := by
      rcases h with h | h <;> simp [h]
    simp [FT2.get_route, hb]

/-- Claim C8 (amended to the fantastic-tour.py display path): when the first
path carries distance and time but no instructions (absent or empty)
display_results still succeeds with the no-instructions placeholder text,
and with an instruction list present it succeeds rendering exactly one line
per well-formed entry - entries that are not dicts or lack text or distance
are skipped without failing the result. -/
theorem C8_theorem (unit : String) (data : RouteData) (path : PathEntry)
    (rest : List PathEntry) (d t : Q)
    (hp : data.paths = some (path :: rest))
    (hd : path.distance = some d) (ht : path.time = some t)
    (hd0 : Q.blt d 0 = false) (ht0 : Q.blt t 0 = false) :
    ((path.instructions = none ∨ path.instructions = some []) →
       FT.display_results unit data =
         .ok (FT.format_distance unit d) (FT.format_time t)
           (FT.directionsHeader ++ FT.noInstrLine ++ FT.directionsFooter)) ∧
    (∀ l, path.instructions = some l → l ≠ [] →
       FT.display_results unit data =
           .ok (FT.format_distance unit d) (FT.format_time t)
             (FT.directionsHeader ++ String.join (FT.instrLines unit l)
               ++ FT.directionsFooter)
         ∧ (FT.instrLines unit l).length = (l.filter instrWellFormed).length) := by
  constructor
  · intro hmiss
    unfold FT.display_results
    rcases hmiss with hm | hm <;>
      simp [hp, hd, ht, hd0, ht0, hm]
  · intro l hl hne
    constructor
    · unfold FT.display_results
      cases l with
      | nil => exact absurd rfl hne
      | cons a tl => simp [hp, hd, ht, hd0, ht0, hl]
    · exact instrLines_length unit l

/-- Witness for C8_theorem: a concrete path without instructions and one whose
list holds one well-formed entry among two malformed ones. -/
theorem C8_witness :
    FT.display_results "metric"
      ⟨some [⟨some 5000, some 600000, none, none⟩], none⟩
      = .ok (FT.format_distance "metric" 5000) (FT.format_time 600000)
          (FT.directionsHeader ++ FT.noInstrLine ++ FT.directionsFooter) ∧
    (FT.display_results "metric"
      ⟨some [⟨some 5000, some 600000,
        some [.nonDict, .item (some "Head north") (some 200), .item none (some 3)],
        none⟩], none⟩
      = .ok (FT.format_distance "metric" 5000) (FT.format_time 600000)
          (FT.directionsHeader
            ++ String.join (FT.instrLines "metric"
                 [.nonDict, .item (some "Head north") (some 200), .item none (some 3)])
            ++ FT.directionsFooter)
      ∧ (FT.instrLines "metric"
           [.nonDict, .item (some "Head north") (some 200), .item none (some 3)]).length
        = ([InstrItem.nonDict, .item (some "Head north") (some 200),
            .item none (some 3)].filter instrWellFormed).length) :=
  ⟨( C8_theorem "metric" _ _ [] 5000 600000 rfl rfl rfl (by decide) (by decide)).1
     (Or.inl rfl),
   ( C8_theorem "metric" _ _ [] 5000 600000 rfl rfl rfl (by decide) (by decide)).2
     _ rfl (by decide)⟩

/-- Counterexample to claim C8 as stated: in fantasticTour.py the workflow
calculate_route raises an uncaught KeyError when the instructions field is
absent, instead of producing a successful result with an empty turn
sequence. -/
theorem C8_counterexample :
    FT2.calculate_route (.str "k") "Manila" "Baguio" "car"
      ⟨.resp 200 (.dict ⟨some [⟨some ⟨some 10, some 20⟩, some "Alpha", some "PH", some "NCR"⟩], none⟩),
       .resp 200 (.dict ⟨some [⟨some ⟨some 30, some 40⟩, some "Beta", some "PH", some "NCR"⟩], none⟩),
       .resp 200 (.dict ⟨some [⟨some 5000, some 600000, none, none⟩], none⟩)⟩
      = (1, Except.error (PyExc.keyErr "instructions")) := by
  decide

/-- Claim C9 (amended): the CLI helper format_distance satisfies the three
specified equalities and switches units at 1000 metres and at 0.1 miles,
while the GUI helper of fantastic-tour.py formats with two decimals,
yielding 1.50 km and 1.00 miles at the same inputs. -/
theorem C9_theorem :
    MQ.format_distance "metric" 1500 = "1.5 km" ∧
    MQ.format_distance "metric" 500 = "500 m" ∧
    MQ.format_distance "imperial" (Q.mk2 160934 100) = "1.0 miles" ∧
    MQ.format_distance "metric" 1000 = "1.0 km" ∧
    MQ.format_distance "metric" 999 = "999 m" ∧
    MQ.format_distance "imperial" (Q.mk2 160934 1000) = "0.1 miles" ∧
    MQ.format_distance "imperial" 160 = "525 ft" ∧
    FT.format_distance "metric" 1500 = "1.50 km" ∧
    FT.format_distance "metric" 500 = "500 m" ∧
    FT.format_distance "imperial" (Q.mk2 160934 100) = "1.00 miles" := by
  decide

/-- Counterexample to claim C9 as stated: the distance-formatting helper of
fantastic-tour.py renders 1500 metres in metric as 1.50 km, not 1.5 km. -/
theorem C9_counterexample :
    FT.format_distance "metric" 1500 = "1.50 km" ∧
    FT.format_distance "metric" 1500 ≠ "1.5 km" := by
  decide

/-- Claim C10: when the configured API key is None, not a string, or whitespace-
only, validate_api_key fails with one of the two key messages, geocode
returns that failure after input validation (an invalid input still wins)
with zero HTTP requests, and get_route returns it after the coordinate and
vehicle checks with zero HTTP requests. -/
theorem C10_theorem (key : PyKey) (loc vehicle : String) (sla sln ela eln : Q)
    (net : NetResp GeoData) (net2 : NetResp RouteData) (hbad : keyBad key) :
    (∃ m, FT.validate_api_key key = some m ∧
      (m = "API key not found. Please check your .env file."
        ∨ m = "Invalid API key format.") ∧
      (FT.validate_location_input loc = none →
        FT.geocode key loc net = (0, .err m)) ∧
      (coordInRange sla sln = true → coordInRange ela eln = true →
        FT.validate_vehicle_type vehicle = none →
        FT.get_route key (.dict (some sla) (some sln)) (.dict (some ela) (some eln))
          vehicle net2 = (0, .err m))) ∧
    (∀ m', FT.validate_location_input loc = some m' →
       FT.geocode key loc net = (0, .err m')) := by
  constructor
  · have hsome : ∃ m, FT.validate_api_key key = some m
        ∧ (m = "API key not found. Please check your .env file."
            ∨ m = "Invalid API key format.") := by
      rcases hbad with h | ⟨t, h⟩ | ⟨s, h, hs⟩
      · subst h
        exact ⟨_, rfl, Or.inl rfl⟩
      · subst h
        cases t
        · exact ⟨_, rfl, Or.inl rfl⟩
        · exact ⟨_, rfl, Or.inr rfl⟩
      · subst h
        by_cases he : s = ""
        · subst he
          exact ⟨_, rfl, Or.inl rfl⟩
        · refine ⟨"Invalid API key format.", ?_, Or.inr rfl⟩
          simp only [FT.validate_api_key]
          rw [if_neg he, if_pos]
          rw [hs]
          rfl
    obtain ⟨m, hm, hmsg⟩ := hsome
    refine ⟨m, hm, hmsg, ?_, ?_⟩
    · intro hv
      unfold FT.geocode
      rw [hv, hm]
    · intro h1 h2 hveh
      simp [FT.get_route, h1, h2, hveh, hm]
  · intro m' h
    unfold FT.geocode
    rw [h]

/-- Witness for C10_theorem: the whitespace-only key with valid location,
coordinates and vehicle. -/
theorem C10_witness :
    keyBad (PyKey.str " ") ∧
    FT.validate_api_key (PyKey.str " ") = some "Invalid API key format." ∧
    FT.geocode (PyKey.str " ") "Manila" (.exc (.timeout "x"))
      = (0, .err "Invalid API key format.") ∧
    FT.get_route (PyKey.str " ") (.dict (some 10) (some 20))
      (.dict (some 11) (some 21)) "car" (.exc (.timeout "x"))
      = (0, .err "Invalid API key format.") := by
  have hbad : keyBad (PyKey.str " ") := Or.inr (Or.inr ⟨" ", rfl, by decide⟩)
  have h := C10_theorem (PyKey.str " ") "Manila" "car" 10 20 11 21
    (.exc (.timeout "x")) (.exc (.timeout "x")) hbad
  obtain ⟨⟨m, hm, hmsg, hg, hr⟩, _⟩ := h
  have hmeq : m = "Invalid API key format." := by
    rcases hmsg with e | e
    · rw [e] at hm
      exact absurd hm (by decide)
    · exact e
  subst hmeq
  exact ⟨hbad, hm, hg (by decide), hr (by decide) (by decide) (by decide)⟩
